import Mathlib

set_option maxRecDepth 8000

/-!
Verification of the prompt-construction and response-extraction core of
the script `ats_resume_converter.py`.

This file embeds the core logic of the ATS resume converter:

* `build_prompt` (source lines 104-118): brace-escaping of the two
  user-supplied texts, derivation of `user_name_lower`, and rendering of the
  fixed instruction template via Python `str.format`;
* the response-extraction tail of `call_openai_chat` (lines 133-144); and
* the credential-selection / exit-code logic of `main` (lines 168-199),

and proves the behavioural properties stated about them.  Python strings are
modelled as Lean `String`; Python `str.format` is modelled by the state
machine `fmtGo`; `str.replace` with one-character patterns by `doubleChar` /
`dropChar`; `str.lower` by `Char.toLower` mapped over the characters
(faithful on ASCII).
-/

/-- One pass of Python `s.replace(b, bb)` for a one-character pattern `b`
replaced by the two-character string `bb`: every occurrence of `b` is
doubled, left to right. -/
def doubleChar (b : Char) : List Char → List Char
  | [] => []
  | c :: cs => if c = b then b :: b :: doubleChar b cs else c :: doubleChar b cs

/-- Source lines 110-111: `s.replace("\x7b", "\x7b\x7b").replace("\x7d", "\x7d\x7d")` —
first every `\x7b` is doubled, then every `\x7d` is doubled (the passes are
independent: the first introduces no `\x7d`). -/
def escapeBraces (s : String) : String :=
  String.mk (doubleChar '\x7d' (doubleChar '\x7b' s.data))

/-- Python `s.replace(b, "")` for a one-character pattern: drop every
occurrence of `b`. -/
def dropChar (b : Char) : List Char → List Char
  | [] => []
  | c :: cs => if c = b then dropChar b cs else c :: dropChar b cs

/-- Python `s.lower()`, modelled character-wise with `Char.toLower`
(`Char.toLower` lowercases exactly the ASCII letters, which is the behaviour
of Python `str.lower` on ASCII text; every input in the claims is ASCII). -/
def pyLower (s : String) : String :=
  String.mk (s.data.map Char.toLower)

/-- Source line 112: `user_name_lower = user_name.lower().replace(" ", "")` —
lowercase, then remove every space character (exactly U+0020; `str.replace`
touches no other whitespace). -/
def user_name_lower (user_name : String) : String :=
  String.mk (dropChar ' ' (pyLower user_name).data)

/-!
The instruction template `PROMPT_DOCSTRING` (module-level constant of
`ats_resume_converter.py`, lines 30-90).  The source holds it as one raw
string literal; here it is transcribed verbatim but split into segments
`T0, T1, ...` at (and between) its placeholder occurrences, so that every
concrete evaluation in the proofs below stays within the elaborator's
recursion limits.  `PROMPT_DOCSTRING` is the concatenation of the segments
and the placeholder tokens, in source order.  Braces are written `\x7b`/`\x7d`
and apostrophes `\x27`.
-/

/-- Template segment `T0` (verbatim source text). -/
def T0 : String :=
  "Persona:
You are a Senior Recruiter at a top-tier technology firm with 10+ years of experience screening resumes for product and engineering roles. Be exacting, objective, and metrics-first. Act with the authority of an industry hiring lead: prefer modern, active language and quantifiable results.

Context:
You will receive three inputs:
- raw_career_data: the applicant\x27s existing / old career text. Placeholder:\x20"

/-- Template segment `T1` (verbatim source text). -/
def T1 : String :=
  "
- target_job_description: the target job description (JD) to optimize against. Placeholder:\x20"

/-- Template segment `T2` (verbatim source text). -/
def T2 : String :=
  "
- user_name: the candidate\x27s name for personalization. Placeholder:\x20"

/-- Template segment `T3` (verbatim source text). -/
def T3 : String :=
  "

Primary Objective:
Transform the raw career data into a single-column, ATS-optimized resume aligned to the target job description. The final resume must be concise, use standard all-caps section headers, and emphasize measurable achievements using the $X-Y-Z$ formula: \"Accomplished [X] as measured by [Y] by doing [Z]\". If the raw data lacks metrics, insert plausible placeholder metrics in square brackets, e.g., [increased % by 20%] or [reduced time by 2 days].

Instruction Set (strict — follow exactly):

1) KEYWORD DENSITY ANALYSIS
- Identify and prioritize keywords in\x20"

/-- Template segment `T4` (verbatim source text). -/
def T4 : String :=
  ". Produce an internal list of top keywords (no need to output them). Use that list to maximize keyword overlap in the resume.
- When a JD skill appears verbatim (e.g., \"SQL\", \"agile delivery\", \"KPI dashboards\"), preserve the same tokenization and capitalization.

2) BULLET REWRITES (Experience)
- For every experience statement in\x20"

/-- Template segment `T5a` (verbatim source text). -/
def T5a : String :=
  ", rewrite into 3–5 achievement bullets using the $X-Y-Z$ formula.
- Start each bullet with a strong past-tense action verb (e.g., \"Led\", \"Architected\", \"Reduced\", \"Scaled\", \"Automated\").
- Always quantify impact. If raw input lacks numeric results, insert a plausible placeholder in square brackets, e.g., \"[+30%]\", \"[saved 2 days/week]\", \"[$X]\".
- Keep each bullet ≤ 140 characters when possible, but do not truncate essential metrics.

3) PROFESSIONAL SUMMARY
- Produce a 4-line PROFESSIONAL SUMMARY tailored to the JD. Each line must be a complete sentence (not fragments), include at least one high-priority keyword from the JD, and emphasize impact.

4) OUTPUT STRUCTURE & FORMATTING RULES
"

/-- Template segment `T5b` (verbatim source text). -/
def T5b : String :=
  "- The final resume output MUST use only these section headers in ALL CAPS: CONTACT, SUMMARY, SKILLS, EXPERIENCE, EDUCATION.
- Use a single-column plain-text layout. No tables, no special characters except simple bullets using a single asterisk (*) or hyphen (-).
- For CONTACT, include only:\x20"

/-- Template segment `T6` (verbatim source text). -/
def T6 : String :=
  " (Full Name), placeholder email:\x20"

/-- Template segment `T7a` (verbatim source text). -/
def T7a : String :=
  "@example.com, phone placeholder: +91-XXXXXXXXXX, location placeholder: City, Country.
- For SKILLS, present a comma-separated list of hard and soft skills (prioritize JD keywords).
- For EXPERIENCE, present roles in reverse-chronological order. For each role: Company Name, Role Title, Dates (use placeholders if missing). Under each role, provide 3–5 bullets, each following the $X-Y-Z$ formula and containing at least one JD keyword.
- For EDUCATION, supply Degree, University, Graduation Year (use placeholders if missing).

5) OUTPUT REQUIREMENT (very strict)
- The model MUST output the final resume text **only**, preceded by the delimiter:
  ***ATS_OUTPUT_START***
"

/-- Template segment `T7b` (verbatim source text). -/
def T7b : String :=
  "- The final resume text must be enclosed **only once** inside a Markdown code block with triple backticks and plain text (```).
- Additionally (automation constraint), the overall result must be presented as three separate Markdown code blocks: an empty code block first, the required code block containing the resume (with delimiter) second, and an empty code block third. Example structure:
  ```
  ```\x20
  ```\x20
  ***ATS_OUTPUT_START***
  <FINAL RESUME TEXT — EXACT FORMAT AS SPECIFIED>
  ```
  ```
"

/-- Template segment `T7c` (verbatim source text). -/
def T7c : String :=
  "- Do not output any extra commentary, analysis, keyword lists, or JSON. Do not provide usage instructions. The response must contain exactly three Markdown code blocks as described (first and third empty), where the second contains the delimiter and the final resume.

6) LANGUAGE & STYLE
- Use present-day, modern professional English. Avoid flowery language. Prefer measurable, precise terms.
- Avoid personal pronouns except in the CONTACT header for the name.
- Use American English spelling (e.g., \"optimized\", \"analyzed\").

7) ERROR HANDLING RULES
"

/-- Template segment `T7d` (verbatim source text). -/
def T7d : String :=
  "- If the raw data is extremely short or missing, synthesize reasonable industry-typical experience using placeholders in square brackets, but do not invent company names.
- Never invent private/sensitive details (SSNs, real phone numbers, personal IDs).

8) DELIVERABLE
- Only the final ATS-optimized resume as described, embedded in the second of three Markdown code blocks and preceded by the exact delimiter ***ATS_OUTPUT_START***.
"

/-- The placeholder token `\x7braw_career_data\x7d` as it appears in the template. -/
def PH_RCD : String :=
  "\x7braw_career_data\x7d"

/-- The placeholder token `\x7btarget_job_description\x7d` as it appears in the template. -/
def PH_JD : String :=
  "\x7btarget_job_description\x7d"

/-- The placeholder token `\x7buser_name\x7d` as it appears in the template. -/
def PH_UN : String :=
  "\x7buser_name\x7d"

/-- The placeholder token `\x7buser_name_lower\x7d` as it appears in the template. -/
def PH_UNL : String :=
  "\x7buser_name_lower\x7d"

/-- The full template: concatenation of the segments and placeholder
tokens in source order (equal to the one raw literal in the source). -/
def PROMPT_DOCSTRING : String :=
  T0 ++ PH_RCD ++ T1 ++ PH_JD ++ T2 ++ PH_UN ++ T3 ++ PH_JD ++ T4 ++ PH_RCD ++ T5a ++ T5b ++ PH_UN ++ T6 ++ PH_UNL ++ T7a ++ T7b ++ T7c ++ T7d

/-- Term `PROMPT_DOCSTRING.data` in right-nested form with each placeholder
exposed as `\x7b :: key ++ \x7d :: rest` — the shape consumed by the `fmtGo`
rendering lemmas. -/
def tplL : List Char :=
  T0.data ++ ('\x7b' :: ("raw_career_data".data ++ ('\x7d' :: (T1.data ++ ('\x7b' :: ("target_job_description".data ++ ('\x7d' :: (T2.data ++ ('\x7b' :: ("user_name".data ++ ('\x7d' :: (T3.data ++ ('\x7b' :: ("target_job_description".data ++ ('\x7d' :: (T4.data ++ ('\x7b' :: ("raw_career_data".data ++ ('\x7d' :: (T5a.data ++ (T5b.data ++ ('\x7b' :: ("user_name".data ++ ('\x7d' :: (T6.data ++ ('\x7b' :: ("user_name_lower".data ++ ('\x7d' :: (T7a.data ++ (T7b.data ++ (T7c.data ++ (T7d.data))))))))))))))))))))))))))))))))

/-- The composed prompt: the template with, at each placeholder site, the
value `str.format` substitutes there — brace-escaped raw text and job
description, the verbatim user name, and the lowercased space-free handle.
`build_prompt_closed` below proves `build_prompt` always returns exactly
this string. -/
def composedPrompt (raw_career_data target_job_description user_name : String) : String :=
  T0 ++ escapeBraces raw_career_data ++ T1 ++ escapeBraces target_job_description ++ T2 ++ user_name ++ T3 ++ escapeBraces target_job_description ++ T4 ++ escapeBraces raw_career_data ++ T5a ++ T5b ++ user_name ++ T6 ++ user_name_lower user_name ++ T7a ++ T7b ++ T7c ++ T7d

/-- Failure of Python `str.format` (a `ValueError`, `KeyError` or
`IndexError` raised while rendering the template).  No claim depends on the
exact exception class, only on success versus failure. -/
inductive FmtErr where
  /-- a `\x7b` with no matching `\x7d`, or a `\x7b` inside a field name -/
  | singleOpen
  /-- a `\x7d` not preceded by `\x7b` -/
  | singleClose
  /-- a field name with no binding among the keyword arguments (Python
  `KeyError`; `IndexError` for the auto-numbered field `\x7b\x7d`) -/
  | badKey (k : String)
deriving DecidableEq

/-- Scanner state of the `str.format` rendering pass. -/
inductive FmtState where
  | normal
  | sawOpen
  | inKey (acc : List Char)
  | sawClose
deriving DecidableEq

/-- Keyword-argument lookup: first binding of `key` in the association list. -/
def lookupKey : List (String × String) → String → Option String
  | [], _ => none
  | (k, v) :: rest, key => if k = key then some v else lookupKey rest key

/-- The rendering pass of Python `template.format(**env)`, restricted to the
feature set the source template uses: literal text, `\x7b\x7b` / `\x7d\x7d` escapes,
and plain named fields `\x7bname\x7d` (no `!` conversions, `:` format specs, or
nested fields — the template contains none).  Substituted values are emitted
verbatim and never re-scanned: scanning continues in the template only
(Python `str.format` is single-pass). -/
def fmtGo (env : List (String × String)) : FmtState → List Char → Except FmtErr (List Char)
  | .normal, [] => .ok []
  | .sawOpen, [] => .error .singleOpen
  | .inKey _, [] => .error .singleOpen
  | .sawClose, [] => .error .singleClose
  | .normal, c :: cs =>
    if c = '\x7b' then fmtGo env .sawOpen cs
    else if c = '\x7d' then fmtGo env .sawClose cs
    else Except.map (fun out => c :: out) (fmtGo env .normal cs)
  | .sawOpen, c :: cs =>
    if c = '\x7b' then Except.map (fun out => '\x7b' :: out) (fmtGo env .normal cs)
    else if c = '\x7d' then
      match lookupKey env "" with
      | some v => Except.map (fun out => v.data ++ out) (fmtGo env .normal cs)
      | none => .error (.badKey "")
    else fmtGo env (.inKey [c]) cs
  | .inKey acc, c :: cs =>
    if c = '\x7d' then
      match lookupKey env (String.mk acc.reverse) with
      | some v => Except.map (fun out => v.data ++ out) (fmtGo env .normal cs)
      | none => .error (.badKey (String.mk acc.reverse))
    else if c = '\x7b' then .error .singleOpen
    else fmtGo env (.inKey (c :: acc)) cs
  | .sawClose, c :: cs =>
    if c = '\x7d' then Except.map (fun out => '\x7d' :: out) (fmtGo env .normal cs)
    else .error .singleClose

/-- The keyword arguments of the `PROMPT_DOCSTRING.format(...)` call on
source lines 113-118, in source order. -/
def buildEnv (raw_career_data target_job_description user_name : String) :
    List (String × String) :=
  [("raw_career_data", escapeBraces raw_career_data),
   ("target_job_description", escapeBraces target_job_description),
   ("user_name", user_name),
   ("user_name_lower", user_name_lower user_name)]

/-- Function `build_prompt` (source lines 104-118): escape braces in the two
user-supplied texts, derive `user_name_lower`, and render the template.
Python `str.format` raises on a malformed template, hence the `Except`
result; `build_prompt_total` below shows the call never fails for this
template. -/
def build_prompt (raw_career_data target_job_description user_name : String) :
    Except FmtErr String :=
  Except.map String.mk
    (fmtGo (buildEnv raw_career_data target_job_description user_name)
      .normal PROMPT_DOCSTRING.data)

/-- A Python value sitting at a `content` / `text` position of a completion
response: either `None` or a string. -/
inductive PyText where
  | null
  | str (s : String)
deriving DecidableEq

/-- A completion-service response as observed through the three access paths
the source tries (lines 133-144).  A field is `some v` when the path
evaluates without raising, yielding the Python value `v`, and `none` when
the access raises (missing key/attribute, wrong shape, ...).  `rest` stands
for whatever else the raw response object carries; the extraction code never
consults it. -/
structure ChatResponse where
  /-- Path `resp["choices"][0]["message"]["content"]` (mapping style, line 136) -/
  mappingMessageContent : Option PyText
  /-- Path `resp.choices[0].message.content` (attribute style, line 139) -/
  attrMessageContent : Option PyText
  /-- Path `resp["choices"][0]["text"]` (legacy completion style, line 142) -/
  mappingText : Option PyText
  /-- the remainder of the raw response object, opaque to the extraction -/
  rest : String
deriving DecidableEq

/-- The error raised when every access path fails (source line 144):
`RuntimeError("Unexpected OpenAI response structure")` — a constant message,
chained (`from exc`) to the exception of the last failed access.  The raw
response object is not stored on the error. -/
inductive ServiceError where
  | unexpectedResponseStructure
deriving DecidableEq

/-- The response-extraction tail of `call_openai_chat` (source lines
133-144): try the mapping-style path, then the attribute-style path, then
the legacy text path, returning the first access that does not raise;
raise `RuntimeError` when all three raise.  (The network call itself is
modelled by passing the already-received response as the argument.) -/
def call_openai_chat (resp : ChatResponse) : Except ServiceError PyText :=
  match resp.mappingMessageContent with
  | some v => .ok v
  | none =>
    match resp.attrMessageContent with
    | some v => .ok v
    | none =>
      match resp.mappingText with
      | some v => .ok v
      | none => .error .unexpectedResponseStructure

/-- Python truthiness of an optional string (`None` and `""` are falsy). -/
def pyTruthy : Option String → Bool
  | none => false
  | some s => !s.isEmpty

/-- Source line 198: `assistant_text or ""` — a `None` (or empty) assistant
text is written as the empty string. -/
def orEmptyStr : PyText → String
  | .null => ""
  | .str s => s

/-- The credential-selection and exit-code logic of the source's `main`
function (lines 168-199; named `mainFn` here because `main` is reserved), with the I/O boundary explicit: `api_key_arg` is `--api-key`,
`env_key` is `OPENAI_API_KEY`, and `service_response` is `some resp` when
`openai.ChatCompletion.create` returns `resp` and `none` when it raises
(network / auth / rate-limit / timeout failure, caught on line 192).  The
result is `(exit code, text written to stdout)`.  File reading and prompt
construction sit before this fragment; `build_prompt` never fails
(`build_prompt_total` below), so they do not affect the exit code paths
modelled here. -/
def mainFn (api_key_arg env_key : Option String) (service_response : Option ChatResponse) :
    Nat × String :=
  let key := if pyTruthy api_key_arg then api_key_arg else env_key
  if !pyTruthy key then (2, "")
  else
    match service_response with
    | none => (3, "")
    | some resp =>
      match call_openai_chat resp with
      | .error _ => (3, "")
      | .ok v => (0, orEmptyStr v)

/-- Occurrences of the character `b` in a character list. -/
def countChar (b : Char) : List Char → Nat
  | [] => 0
  | c :: cs => (if c = b then 1 else 0) + countChar b cs

/-- Number of positions of `l` at which the (non-empty) pattern `pat`
starts. -/
def countOccL (pat : List Char) : List Char → Nat
  | [] => 0
  | c :: cs => (if pat.isPrefixOf (c :: cs) then 1 else 0) + countOccL pat cs

/-- Count `countCharS s b`: occurrences of the character `b` in the string `s`. -/
def countCharS (s : String) (b : Char) : Nat := countChar b s.data

/-- Count `countOccS s pat`: positions of `s` at which the substring `pat`
starts. -/
def countOccS (s pat : String) : Nat := countOccL pat.data s.data

/-- The prompt `build_prompt` renders (the empty string in the — never
occurring — failure case); convenience wrapper for stating concrete facts. -/
def promptOf (raw_career_data target_job_description user_name : String) : String :=
  match build_prompt raw_career_data target_job_description user_name with
  | .ok s => s
  | .error _ => ""

/-- A completion-service call outcome that counts as a failure for `mainFn`:
the network call raised (`none`), or extraction raised on the returned
response. -/
def serviceCallFailed : Option ChatResponse → Bool
  | none => true
  | some resp =>
    match call_openai_chat resp with
    | .error _ => true
    | .ok _ => false

/-- An all-paths-fail response carrying one raw payload. -/
def respFailA : ChatResponse := ⟨none, none, none, "raw payload A"⟩

/-- An all-paths-fail response carrying a different raw payload. -/
def respFailB : ChatResponse := ⟨none, none, none, "raw payload B"⟩

/-- A response whose mapping-style path succeeds with a Python `None`
content (as the real API returns for tool-call messages). -/
def respNullContent : ChatResponse := ⟨some .null, none, none, "resp with null content"⟩

/-! ## String and `Except` basics -/

theorem data_append (s t : String) : (s ++ t).data = s.data ++ t.data := rfl

theorem mk_eq_iff (l : List Char) (s : String) : String.mk l = s ↔ l = s.data := by
  cases s with
  | mk d => exact ⟨fun h => by injection h, fun h => by rw [h]⟩

theorem emap_ok {α β : Type} (f : α → β) (x : α) :
    Except.map (ε := FmtErr) f (.ok x) = .ok (f x) := rfl

/-! ## Single-step lemmas for `fmtGo` -/

theorem fmtGo_nil (env : List (String × String)) : fmtGo env .normal [] = .ok [] := rfl

theorem fmtGo_normal_open (env : List (String × String)) (cs : List Char) :
    fmtGo env .normal ('\x7b' :: cs) = fmtGo env .sawOpen cs := rfl

theorem fmtGo_normal_other (env : List (String × String)) (c : Char) (cs : List Char)
    (ho : c ≠ '\x7b') (hc : c ≠ '\x7d') :
    fmtGo env .normal (c :: cs) = Except.map (fun out => c :: out) (fmtGo env .normal cs) := by
  simp only [fmtGo, if_neg ho, if_neg hc]

theorem fmtGo_sawOpen_other (env : List (String × String)) (c : Char) (cs : List Char)
    (ho : c ≠ '\x7b') (hc : c ≠ '\x7d') :
    fmtGo env .sawOpen (c :: cs) = fmtGo env (.inKey [c]) cs := by
  simp only [fmtGo, if_neg ho, if_neg hc]

theorem fmtGo_inKey_close (env : List (String × String)) (acc l : List Char) :
    fmtGo env (.inKey acc) ('\x7d' :: l) =
      match lookupKey env (String.mk acc.reverse) with
      | some v => Except.map (fun out => v.data ++ out) (fmtGo env .normal l)
      | none => Except.error (.badKey (String.mk acc.reverse)) := rfl

theorem fmtGo_inKey_step (env : List (String × String)) (acc : List Char) (c : Char)
    (cs : List Char) (ho : c ≠ '\x7b') (hc : c ≠ '\x7d') :
    fmtGo env (.inKey acc) (c :: cs) = fmtGo env (.inKey (c :: acc)) cs := by
  simp only [fmtGo, if_neg ho, if_neg hc]

/-! ## Rendering lemmas for `fmtGo` -/

theorem fmtGo_append_clean (env : List (String × String)) (p : List Char) :
    ∀ l : List Char, '\x7b' ∉ p → '\x7d' ∉ p →
      fmtGo env .normal (p ++ l) = Except.map (fun out => p ++ out) (fmtGo env .normal l) := by
  induction p with
  | nil =>
    intro l _ _
    show fmtGo env .normal l = _
    cases fmtGo env .normal l <;> rfl
  | cons c cs ih =>
    intro l ho hc
    simp only [List.mem_cons, not_or] at ho hc
    rw [List.cons_append,
      fmtGo_normal_other env c _ (Ne.symm ho.1) (Ne.symm hc.1), ih l ho.2 hc.2]
    cases fmtGo env .normal l <;> rfl

theorem fmtGo_key_run (env : List (String × String)) :
    ∀ (k acc l : List Char), '\x7b' ∉ k → '\x7d' ∉ k →
      fmtGo env (.inKey acc) (k ++ '\x7d' :: l) =
        match lookupKey env (String.mk (acc.reverse ++ k)) with
        | some v => Except.map (fun out => v.data ++ out) (fmtGo env .normal l)
        | none => Except.error (.badKey (String.mk (acc.reverse ++ k))) := by
  intro k
  induction k with
  | nil =>
    intro acc l _ _
    rw [List.nil_append, List.append_nil, fmtGo_inKey_close]
  | cons c cs ih =>
    intro acc l ho hc
    simp only [List.mem_cons, not_or] at ho hc
    rw [List.cons_append,
      fmtGo_inKey_step env acc c _ (Ne.symm ho.1) (Ne.symm hc.1), ih (c :: acc) l ho.2 hc.2,
      List.reverse_cons, List.append_assoc, List.singleton_append]

theorem fmtGo_placeholder_some (env : List (String × String)) (k : String) (l : List Char)
    (v : String) (hne : k.data ≠ []) (ho : '\x7b' ∉ k.data) (hc : '\x7d' ∉ k.data)
    (hv : lookupKey env k = some v) :
    fmtGo env .normal ('\x7b' :: (k.data ++ '\x7d' :: l)) =
      Except.map (fun out => v.data ++ out) (fmtGo env .normal l) := by
  cases hk : k.data with
  | nil => exact absurd hk hne
  | cons c0 k' =>
    rw [hk] at ho hc
    simp only [List.mem_cons, not_or] at ho hc
    rw [fmtGo_normal_open, List.cons_append,
      fmtGo_sawOpen_other env c0 _ (Ne.symm ho.1) (Ne.symm hc.1),
      fmtGo_key_run env k' [c0] l ho.2 hc.2]
    have hkey : String.mk ([c0].reverse ++ k') = k := by
      rw [List.reverse_cons, List.reverse_nil, List.nil_append, List.singleton_append, ← hk]
    rw [hkey, hv]

theorem fmtGo_clean_total (env : List (String × String)) (p : List Char)
    (ho : '\x7b' ∉ p) (hc : '\x7d' ∉ p) : fmtGo env .normal p = .ok p := by
  have h := fmtGo_append_clean env p [] ho hc
  rw [List.append_nil] at h
  rw [h, fmtGo_nil, emap_ok, List.append_nil]

/-! ## The template in rendering shape -/

theorem ph_rcd_cons (l : List Char) :
    PH_RCD.data ++ l = '\x7b' :: ("raw_career_data".data ++ ('\x7d' :: l)) := rfl

theorem ph_jd_cons (l : List Char) :
    PH_JD.data ++ l = '\x7b' :: ("target_job_description".data ++ ('\x7d' :: l)) := rfl

theorem ph_un_cons (l : List Char) :
    PH_UN.data ++ l = '\x7b' :: ("user_name".data ++ ('\x7d' :: l)) := rfl

theorem ph_unl_cons (l : List Char) :
    PH_UNL.data ++ l = '\x7b' :: ("user_name_lower".data ++ ('\x7d' :: l)) := rfl

theorem tpl_shape : PROMPT_DOCSTRING.data = tplL := by
  simp only [PROMPT_DOCSTRING, tplL, data_append, List.append_assoc, List.cons_append,
    ph_rcd_cons, ph_jd_cons, ph_un_cons, ph_unl_cons]

theorem fmtGo_append_clean2 (env : List (String × String)) (p l : List Char)
    (ho : '\x7b' ∉ p) (hc : '\x7d' ∉ p) :
    fmtGo env .normal (p ++ l) = Except.map (fun out => p ++ out) (fmtGo env .normal l) :=
  fmtGo_append_clean env p l ho hc

/-- Closed form of `build_prompt`: rendering the template substitutes the
escaped raw text, the escaped job description, the verbatim user name
(twice) and the lowercased space-free handle at their placeholder sites and
succeeds for every input. -/
theorem build_prompt_closed (raw jd name : String) :
    build_prompt raw jd name = .ok (composedPrompt raw jd name) := by
  unfold build_prompt
  rw [tpl_shape]
  simp only [tplL]
  rw [fmtGo_append_clean2 (buildEnv raw jd name) T0.data _ (by decide) (by decide)]
  rw [fmtGo_placeholder_some (buildEnv raw jd name) "raw_career_data" _ (escapeBraces raw)
    (by decide) (by decide) (by decide) rfl]
  rw [fmtGo_append_clean2 (buildEnv raw jd name) T1.data _ (by decide) (by decide)]
  rw [fmtGo_placeholder_some (buildEnv raw jd name) "target_job_description" _ (escapeBraces jd)
    (by decide) (by decide) (by decide) rfl]
  rw [fmtGo_append_clean2 (buildEnv raw jd name) T2.data _ (by decide) (by decide)]
  rw [fmtGo_placeholder_some (buildEnv raw jd name) "user_name" _ name
    (by decide) (by decide) (by decide) rfl]
  rw [fmtGo_append_clean2 (buildEnv raw jd name) T3.data _ (by decide) (by decide)]
  rw [fmtGo_placeholder_some (buildEnv raw jd name) "target_job_description" _ (escapeBraces jd)
    (by decide) (by decide) (by decide) rfl]
  rw [fmtGo_append_clean2 (buildEnv raw jd name) T4.data _ (by decide) (by decide)]
  rw [fmtGo_placeholder_some (buildEnv raw jd name) "raw_career_data" _ (escapeBraces raw)
    (by decide) (by decide) (by decide) rfl]
  rw [fmtGo_append_clean2 (buildEnv raw jd name) T5a.data _ (by decide) (by decide)]
  rw [fmtGo_append_clean2 (buildEnv raw jd name) T5b.data _ (by decide) (by decide)]
  rw [fmtGo_placeholder_some (buildEnv raw jd name) "user_name" _ name
    (by decide) (by decide) (by decide) rfl]
  rw [fmtGo_append_clean2 (buildEnv raw jd name) T6.data _ (by decide) (by decide)]
  rw [fmtGo_placeholder_some (buildEnv raw jd name) "user_name_lower" _ (user_name_lower name)
    (by decide) (by decide) (by decide) rfl]
  rw [fmtGo_append_clean2 (buildEnv raw jd name) T7a.data _ (by decide) (by decide)]
  rw [fmtGo_append_clean2 (buildEnv raw jd name) T7b.data _ (by decide) (by decide)]
  rw [fmtGo_append_clean2 (buildEnv raw jd name) T7c.data _ (by decide) (by decide)]
  rw [fmtGo_clean_total (buildEnv raw jd name) T7d.data (by decide) (by decide)]
  simp only [emap_ok, Except.ok.injEq]
  rw [mk_eq_iff]
  simp only [composedPrompt, data_append, List.append_assoc]

/-! ## Counting and membership lemmas -/

theorem mk_data (s : String) : String.mk s.data = s := rfl

theorem countChar_append (b : Char) (a c : List Char) :
    countChar b (a ++ c) = countChar b a + countChar b c := by
  induction a with
  | nil => simp [countChar]
  | cons x xs ih => simp [countChar, ih, Nat.add_assoc]

theorem countChar_eq_zero_of_not_mem (b : Char) (l : List Char) (h : b ∉ l) :
    countChar b l = 0 := by
  induction l with
  | nil => rfl
  | cons c cs ih =>
    simp only [List.mem_cons, not_or] at h
    simp [countChar, if_neg (Ne.symm h.1), ih h.2]

theorem doubleChar_countChar_self (b : Char) (l : List Char) :
    countChar b (doubleChar b l) = 2 * countChar b l := by
  induction l with
  | nil => rfl
  | cons c cs ih =>
    by_cases hc : c = b
    · subst hc
      simp [doubleChar, countChar, ih]
      omega
    · simp [doubleChar, countChar, if_neg hc, ih]

theorem doubleChar_countChar_other (b c : Char) (l : List Char) (h : c ≠ b) :
    countChar c (doubleChar b l) = countChar c l := by
  induction l with
  | nil => rfl
  | cons a as ih =>
    by_cases ha : a = b
    · subst ha
      simp [doubleChar, countChar, if_neg (Ne.symm h), ih]
    · simp [doubleChar, countChar, if_neg ha, ih]

theorem countCharS_escapeBraces_open (s : String) :
    countCharS (escapeBraces s) '\x7b' = 2 * countCharS s '\x7b' := by
  unfold countCharS escapeBraces
  rw [show (String.mk (doubleChar '\x7d' (doubleChar '\x7b' s.data))).data
      = doubleChar '\x7d' (doubleChar '\x7b' s.data) from rfl]
  rw [doubleChar_countChar_other _ _ _ (by decide), doubleChar_countChar_self]

theorem countCharS_escapeBraces_close (s : String) :
    countCharS (escapeBraces s) '\x7d' = 2 * countCharS s '\x7d' := by
  unfold countCharS escapeBraces
  rw [show (String.mk (doubleChar '\x7d' (doubleChar '\x7b' s.data))).data
      = doubleChar '\x7d' (doubleChar '\x7b' s.data) from rfl]
  rw [doubleChar_countChar_self, doubleChar_countChar_other _ _ _ (by decide)]

theorem doubleChar_id_of_not_mem (b : Char) (l : List Char) (h : b ∉ l) :
    doubleChar b l = l := by
  induction l with
  | nil => rfl
  | cons c cs ih =>
    simp only [List.mem_cons, not_or] at h
    simp [doubleChar, if_neg (Ne.symm h.1), ih h.2]

theorem escapeBraces_id (s : String) (ho : '\x7b' ∉ s.data) (hc : '\x7d' ∉ s.data) :
    escapeBraces s = s := by
  unfold escapeBraces
  rw [doubleChar_id_of_not_mem _ _ ho, doubleChar_id_of_not_mem _ _ hc, mk_data]

theorem mem_of_mem_dropChar (b c : Char) (l : List Char) (h : c ∈ dropChar b l) : c ∈ l := by
  induction l with
  | nil => simp [dropChar] at h
  | cons a as ih =>
    by_cases ha : a = b
    · rw [show dropChar b (a :: as) = dropChar b as by simp [dropChar, ha]] at h
      exact List.mem_cons_of_mem a (ih h)
    · rw [show dropChar b (a :: as) = a :: dropChar b as by simp [dropChar, ha]] at h
      rcases List.mem_cons.mp h with h1 | h2
      · exact h1 ▸ List.mem_cons_self a as
      · exact List.mem_cons_of_mem a (ih h2)

theorem char_toNat_ofNat {n : Nat} (h : n.isValidChar) : (Char.ofNat n).toNat = n := by
  rw [Char.ofNat, dif_pos h]
  rfl

theorem toLower_eq_of_gt (c d : Char) (hd : 122 < d.toNat) (h : Char.toLower c = d) : c = d := by
  simp only [Char.toLower] at h
  split at h
  next hc =>
    exfalso
    have h2 := congrArg Char.toNat h
    have hv : (c.toNat + 32).isValidChar := Or.inl (by omega)
    rw [char_toNat_ofNat hv] at h2
    omega
  next => exact h

theorem mem_of_mem_pyLower (s : String) (b : Char) (hb : 122 < b.toNat)
    (h : b ∈ (pyLower s).data) : b ∈ s.data := by
  unfold pyLower at h
  rw [show (String.mk (s.data.map Char.toLower)).data = s.data.map Char.toLower from rfl] at h
  rcases List.mem_map.mp h with ⟨a, ha, haeq⟩
  rwa [toLower_eq_of_gt a b hb haeq] at ha

theorem mem_of_mem_user_name_lower (name : String) (b : Char) (hb : 122 < b.toNat)
    (h : b ∈ (user_name_lower name).data) : b ∈ name.data := by
  unfold user_name_lower at h
  rw [show (String.mk (dropChar ' ' (pyLower name).data)).data
      = dropChar ' ' (pyLower name).data from rfl] at h
  exact mem_of_mem_pyLower name b hb (mem_of_mem_dropChar _ _ _ h)

/-! ## Substring-occurrence lemmas -/

theorem isPrefixOf_append_self (p r : List Char) : p.isPrefixOf (p ++ r) = true := by
  induction p with
  | nil => cases r <;> rfl
  | cons c cs ih => simp [List.isPrefixOf, ih]

theorem countOccL_pos_of_prefix (pat l : List Char) (hne : pat ≠ [])
    (h : pat.isPrefixOf l = true) : 1 ≤ countOccL pat l := by
  cases l with
  | nil =>
    cases pat with
    | nil => exact absurd rfl hne
    | cons p ps => simp [List.isPrefixOf] at h
  | cons c cs =>
    rw [countOccL, if_pos h]
    omega

theorem countOccL_append_le (pat a b : List Char) :
    countOccL pat b ≤ countOccL pat (a ++ b) := by
  induction a with
  | nil => simp
  | cons c cs ih =>
    rw [List.cons_append, countOccL]
    omega

theorem countOccL_skip_not_head (c0 : Char) (p' : List Char) (c : Char) (b : List Char)
    (h : c ≠ c0) : countOccL (c0 :: p') (c :: b) = countOccL (c0 :: p') b := by
  have hpre : ((c0 :: p').isPrefixOf (c :: b)) = false := by
    simp [List.isPrefixOf, Ne.symm h]
  rw [countOccL, hpre]
  simp

theorem countOccL_skip_clean (c0 : Char) (p' a b : List Char) (h : c0 ∉ a) :
    countOccL (c0 :: p') (a ++ b) = countOccL (c0 :: p') b := by
  induction a with
  | nil => rfl
  | cons c cs ih =>
    simp only [List.mem_cons, not_or] at h
    rw [List.cons_append, countOccL_skip_not_head c0 p' c _ (Ne.symm h.1), ih h.2]

theorem countOccL_zero_of_not_mem (c0 : Char) (p' L : List Char) (h : c0 ∉ L) :
    countOccL (c0 :: p') L = 0 := by
  have := countOccL_skip_clean c0 p' L [] h
  rw [List.append_nil] at this
  rw [this]
  rfl

/-! ## Concrete facts about the template segments -/

theorem clean_T0 : '\x7b' ∉ T0.data ∧ '\x7d' ∉ T0.data := by decide

theorem clean_T1 : '\x7b' ∉ T1.data ∧ '\x7d' ∉ T1.data := by decide

theorem clean_T2 : '\x7b' ∉ T2.data ∧ '\x7d' ∉ T2.data := by decide

theorem clean_T3 : '\x7b' ∉ T3.data ∧ '\x7d' ∉ T3.data := by decide

theorem clean_T4 : '\x7b' ∉ T4.data ∧ '\x7d' ∉ T4.data := by decide

theorem clean_T5a : '\x7b' ∉ T5a.data ∧ '\x7d' ∉ T5a.data := by decide

theorem clean_T5b : '\x7b' ∉ T5b.data ∧ '\x7d' ∉ T5b.data := by decide

theorem clean_T6 : '\x7b' ∉ T6.data ∧ '\x7d' ∉ T6.data := by decide

theorem clean_T7a : '\x7b' ∉ T7a.data ∧ '\x7d' ∉ T7a.data := by decide

theorem clean_T7b : '\x7b' ∉ T7b.data ∧ '\x7d' ∉ T7b.data := by decide

theorem clean_T7c : '\x7b' ∉ T7c.data ∧ '\x7d' ∉ T7c.data := by decide

theorem clean_T7d : '\x7b' ∉ T7d.data ∧ '\x7d' ∉ T7d.data := by decide

/-! ## The rendered prompt, decomposed -/

theorem promptOf_eq (raw jd name : String) :
    promptOf raw jd name = composedPrompt raw jd name := by
  unfold promptOf
  rw [build_prompt_closed]

theorem composed_data (raw jd name : String) :
    (composedPrompt raw jd name).data =
      T0.data ++ ((escapeBraces raw).data ++ (T1.data ++ ((escapeBraces jd).data ++ (T2.data ++ (name.data ++ (T3.data ++ ((escapeBraces jd).data ++ (T4.data ++ ((escapeBraces raw).data ++ (T5a.data ++ (T5b.data ++ (name.data ++ (T6.data ++ ((user_name_lower name).data ++ (T7a.data ++ (T7b.data ++ (T7c.data ++ (T7d.data)))))))))))))))))) := by
  simp only [composedPrompt, data_append, List.append_assoc]

theorem countCharS_composed (raw jd name : String) (b : Char) :
    countCharS (composedPrompt raw jd name) b =
      countCharS T0 b + countCharS (escapeBraces raw) b + countCharS T1 b +
      countCharS (escapeBraces jd) b + countCharS T2 b + countCharS name b +
      countCharS T3 b + countCharS (escapeBraces jd) b + countCharS T4 b +
      countCharS (escapeBraces raw) b + countCharS T5a b + countCharS T5b b +
      countCharS name b + countCharS T6 b + countCharS (user_name_lower name) b +
      countCharS T7a b + countCharS T7b b + countCharS T7c b + countCharS T7d b := by
  unfold countCharS
  rw [composed_data]
  simp only [countChar_append, Nat.add_assoc]

theorem nil_isPrefixOf (l : List Char) : ([] : List Char).isPrefixOf l = true := by
  cases l <;> rfl

theorem countOccL_ph_hit (p' : List Char) (k : String) (rest : List Char)
    (hpre : (('\x7b' :: p').isPrefixOf ('\x7b' :: (k.data ++ '\x7d' :: rest))) = true)
    (hk : '\x7b' ∉ k.data) :
    countOccL ('\x7b' :: p') ('\x7b' :: (k.data ++ '\x7d' :: rest)) =
      1 + countOccL ('\x7b' :: p') rest := by
  rw [countOccL, if_pos hpre, countOccL_skip_clean _ _ _ _ hk,
      countOccL_skip_not_head _ _ _ _ (by decide)]

theorem countOccL_ph_miss (p' : List Char) (k : String) (rest : List Char)
    (hpre : (('\x7b' :: p').isPrefixOf ('\x7b' :: (k.data ++ '\x7d' :: rest))) = false)
    (hk : '\x7b' ∉ k.data) :
    countOccL ('\x7b' :: p') ('\x7b' :: (k.data ++ '\x7d' :: rest)) =
      countOccL ('\x7b' :: p') rest := by
  rw [countOccL, if_neg (by simp [hpre]), countOccL_skip_clean _ _ _ _ hk,
      countOccL_skip_not_head _ _ _ _ (by decide), Nat.zero_add]

/-- Occurrence count of the `raw_career_data` placeholder token in the
template: it appears twice. -/
theorem tpl_count_rcd : countOccS PROMPT_DOCSTRING "\x7braw_career_data\x7d" = 2 := by
  unfold countOccS
  rw [tpl_shape,
    show ("\x7braw_career_data\x7d").data = '\x7b' :: ("raw_career_data\x7d").data from rfl]
  simp only [tplL]
  rw [countOccL_skip_clean _ _ _ _ clean_T0.1,
    countOccL_ph_hit _ "raw_career_data" _ (by decide) (by decide),
    countOccL_skip_clean _ _ _ _ clean_T1.1,
    countOccL_ph_miss _ "target_job_description" _ (by decide) (by decide),
    countOccL_skip_clean _ _ _ _ clean_T2.1,
    countOccL_ph_miss _ "user_name" _ (by decide) (by decide),
    countOccL_skip_clean _ _ _ _ clean_T3.1,
    countOccL_ph_miss _ "target_job_description" _ (by decide) (by decide),
    countOccL_skip_clean _ _ _ _ clean_T4.1,
    countOccL_ph_hit _ "raw_career_data" _ (by decide) (by decide),
    countOccL_skip_clean _ _ _ _ clean_T5a.1,
    countOccL_skip_clean _ _ _ _ clean_T5b.1,
    countOccL_ph_miss _ "user_name" _ (by decide) (by decide),
    countOccL_skip_clean _ _ _ _ clean_T6.1,
    countOccL_ph_miss _ "user_name_lower" _ (by decide) (by decide),
    countOccL_skip_clean _ _ _ _ clean_T7a.1,
    countOccL_skip_clean _ _ _ _ clean_T7b.1,
    countOccL_skip_clean _ _ _ _ clean_T7c.1,
    countOccL_zero_of_not_mem _ _ _ clean_T7d.1]

/-- Occurrence count of the `target_job_description` placeholder token in
the template: it appears twice. -/
theorem tpl_count_jd : countOccS PROMPT_DOCSTRING "\x7btarget_job_description\x7d" = 2 := by
  unfold countOccS
  rw [tpl_shape,
    show ("\x7btarget_job_description\x7d").data
      = '\x7b' :: ("target_job_description\x7d").data from rfl]
  simp only [tplL]
  rw [countOccL_skip_clean _ _ _ _ clean_T0.1,
    countOccL_ph_miss _ "raw_career_data" _ (by decide) (by decide),
    countOccL_skip_clean _ _ _ _ clean_T1.1,
    countOccL_ph_hit _ "target_job_description" _ (by decide) (by decide),
    countOccL_skip_clean _ _ _ _ clean_T2.1,
    countOccL_ph_miss _ "user_name" _ (by decide) (by decide),
    countOccL_skip_clean _ _ _ _ clean_T3.1,
    countOccL_ph_hit _ "target_job_description" _ (by decide) (by decide),
    countOccL_skip_clean _ _ _ _ clean_T4.1,
    countOccL_ph_miss _ "raw_career_data" _ (by decide) (by decide),
    countOccL_skip_clean _ _ _ _ clean_T5a.1,
    countOccL_skip_clean _ _ _ _ clean_T5b.1,
    countOccL_ph_miss _ "user_name" _ (by decide) (by decide),
    countOccL_skip_clean _ _ _ _ clean_T6.1,
    countOccL_ph_miss _ "user_name_lower" _ (by decide) (by decide),
    countOccL_skip_clean _ _ _ _ clean_T7a.1,
    countOccL_skip_clean _ _ _ _ clean_T7b.1,
    countOccL_skip_clean _ _ _ _ clean_T7c.1,
    countOccL_zero_of_not_mem _ _ _ clean_T7d.1]

/-- Occurrence count of the `user_name` placeholder token in the template:
it appears twice. -/
theorem tpl_count_un : countOccS PROMPT_DOCSTRING "\x7buser_name\x7d" = 2 := by
  unfold countOccS
  rw [tpl_shape,
    show ("\x7buser_name\x7d").data = '\x7b' :: ("user_name\x7d").data from rfl]
  simp only [tplL]
  rw [countOccL_skip_clean _ _ _ _ clean_T0.1,
    countOccL_ph_miss _ "raw_career_data" _ (by decide) (by decide),
    countOccL_skip_clean _ _ _ _ clean_T1.1,
    countOccL_ph_miss _ "target_job_description" _ (by decide) (by decide),
    countOccL_skip_clean _ _ _ _ clean_T2.1,
    countOccL_ph_hit _ "user_name" _ (by decide) (by decide),
    countOccL_skip_clean _ _ _ _ clean_T3.1,
    countOccL_ph_miss _ "target_job_description" _ (by decide) (by decide),
    countOccL_skip_clean _ _ _ _ clean_T4.1,
    countOccL_ph_miss _ "raw_career_data" _ (by decide) (by decide),
    countOccL_skip_clean _ _ _ _ clean_T5a.1,
    countOccL_skip_clean _ _ _ _ clean_T5b.1,
    countOccL_ph_hit _ "user_name" _ (by decide) (by decide),
    countOccL_skip_clean _ _ _ _ clean_T6.1,
    countOccL_ph_miss _ "user_name_lower" _ (by decide) (by decide),
    countOccL_skip_clean _ _ _ _ clean_T7a.1,
    countOccL_skip_clean _ _ _ _ clean_T7b.1,
    countOccL_skip_clean _ _ _ _ clean_T7c.1,
    countOccL_zero_of_not_mem _ _ _ clean_T7d.1]

/-- Occurrence count of the `user_name_lower` placeholder token in the
template: it appears once. -/
theorem tpl_count_unl : countOccS PROMPT_DOCSTRING "\x7buser_name_lower\x7d" = 1 := by
  unfold countOccS
  rw [tpl_shape,
    show ("\x7buser_name_lower\x7d").data = '\x7b' :: ("user_name_lower\x7d").data from rfl]
  simp only [tplL]
  rw [countOccL_skip_clean _ _ _ _ clean_T0.1,
    countOccL_ph_miss _ "raw_career_data" _ (by decide) (by decide),
    countOccL_skip_clean _ _ _ _ clean_T1.1,
    countOccL_ph_miss _ "target_job_description" _ (by decide) (by decide),
    countOccL_skip_clean _ _ _ _ clean_T2.1,
    countOccL_ph_miss _ "user_name" _ (by decide) (by decide),
    countOccL_skip_clean _ _ _ _ clean_T3.1,
    countOccL_ph_miss _ "target_job_description" _ (by decide) (by decide),
    countOccL_skip_clean _ _ _ _ clean_T4.1,
    countOccL_ph_miss _ "raw_career_data" _ (by decide) (by decide),
    countOccL_skip_clean _ _ _ _ clean_T5a.1,
    countOccL_skip_clean _ _ _ _ clean_T5b.1,
    countOccL_ph_miss _ "user_name" _ (by decide) (by decide),
    countOccL_skip_clean _ _ _ _ clean_T6.1,
    countOccL_ph_hit _ "user_name_lower" _ (by decide) (by decide),
    countOccL_skip_clean _ _ _ _ clean_T7a.1,
    countOccL_skip_clean _ _ _ _ clean_T7b.1,
    countOccL_skip_clean _ _ _ _ clean_T7c.1,
    countOccL_zero_of_not_mem _ _ _ clean_T7d.1]

/-! ## Brace-freeness of the rendered prompt for brace-free inputs -/

theorem no_open_in_prompt (raw jd name : String)
    (h1 : '\x7b' ∉ raw.data) (h2 : '\x7d' ∉ raw.data) (h3 : '\x7b' ∉ jd.data)
    (h4 : '\x7d' ∉ jd.data) (h5 : '\x7b' ∉ name.data) :
    '\x7b' ∉ (promptOf raw jd name).data := by
  rw [promptOf_eq, composed_data, escapeBraces_id raw h1 h2, escapeBraces_id jd h3 h4]
  intro hmem
  simp only [List.mem_append] at hmem
  rcases hmem with h|h|h|h|h|h|h|h|h|h|h|h|h|h|h|h|h|h|h
  · exact clean_T0.1 h
  · exact h1 h
  · exact clean_T1.1 h
  · exact h3 h
  · exact clean_T2.1 h
  · exact h5 h
  · exact clean_T3.1 h
  · exact h3 h
  · exact clean_T4.1 h
  · exact h1 h
  · exact clean_T5a.1 h
  · exact clean_T5b.1 h
  · exact h5 h
  · exact clean_T6.1 h
  · exact h5 (mem_of_mem_user_name_lower name _ (by decide) h)
  · exact clean_T7a.1 h
  · exact clean_T7b.1 h
  · exact clean_T7c.1 h
  · exact clean_T7d.1 h

theorem no_close_in_prompt (raw jd name : String)
    (h1 : '\x7b' ∉ raw.data) (h2 : '\x7d' ∉ raw.data) (h3 : '\x7b' ∉ jd.data)
    (h4 : '\x7d' ∉ jd.data) (h6 : '\x7d' ∉ name.data) :
    '\x7d' ∉ (promptOf raw jd name).data := by
  rw [promptOf_eq, composed_data, escapeBraces_id raw h1 h2, escapeBraces_id jd h3 h4]
  intro hmem
  simp only [List.mem_append] at hmem
  rcases hmem with h|h|h|h|h|h|h|h|h|h|h|h|h|h|h|h|h|h|h
  · exact clean_T0.2 h
  · exact h2 h
  · exact clean_T1.2 h
  · exact h4 h
  · exact clean_T2.2 h
  · exact h6 h
  · exact clean_T3.2 h
  · exact h4 h
  · exact clean_T4.2 h
  · exact h2 h
  · exact clean_T5a.2 h
  · exact clean_T5b.2 h
  · exact h6 h
  · exact clean_T6.2 h
  · exact h6 (mem_of_mem_user_name_lower name _ (by decide) h)
  · exact clean_T7a.2 h
  · exact clean_T7b.2 h
  · exact clean_T7c.2 h
  · exact clean_T7d.2 h

/-! ## Brace counts of the rendered prompt -/

theorem countCharS_prompt_open (raw jd name : String) :
    countCharS (promptOf raw jd name) '\x7b' =
      4 * countCharS raw '\x7b' + 4 * countCharS jd '\x7b' + 2 * countCharS name '\x7b' +
      countCharS (user_name_lower name) '\x7b' := by
  rw [promptOf_eq, countCharS_composed]
  simp only [countCharS_escapeBraces_open]
  simp only [countCharS]
  rw [countChar_eq_zero_of_not_mem _ _ clean_T0.1, countChar_eq_zero_of_not_mem _ _ clean_T1.1,
    countChar_eq_zero_of_not_mem _ _ clean_T2.1, countChar_eq_zero_of_not_mem _ _ clean_T3.1,
    countChar_eq_zero_of_not_mem _ _ clean_T4.1, countChar_eq_zero_of_not_mem _ _ clean_T5a.1,
    countChar_eq_zero_of_not_mem _ _ clean_T5b.1, countChar_eq_zero_of_not_mem _ _ clean_T6.1,
    countChar_eq_zero_of_not_mem _ _ clean_T7a.1, countChar_eq_zero_of_not_mem _ _ clean_T7b.1,
    countChar_eq_zero_of_not_mem _ _ clean_T7c.1, countChar_eq_zero_of_not_mem _ _ clean_T7d.1]
  omega

theorem countCharS_prompt_close (raw jd name : String) :
    countCharS (promptOf raw jd name) '\x7d' =
      4 * countCharS raw '\x7d' + 4 * countCharS jd '\x7d' + 2 * countCharS name '\x7d' +
      countCharS (user_name_lower name) '\x7d' := by
  rw [promptOf_eq, countCharS_composed]
  simp only [countCharS_escapeBraces_close]
  simp only [countCharS]
  rw [countChar_eq_zero_of_not_mem _ _ clean_T0.2, countChar_eq_zero_of_not_mem _ _ clean_T1.2,
    countChar_eq_zero_of_not_mem _ _ clean_T2.2, countChar_eq_zero_of_not_mem _ _ clean_T3.2,
    countChar_eq_zero_of_not_mem _ _ clean_T4.2, countChar_eq_zero_of_not_mem _ _ clean_T5a.2,
    countChar_eq_zero_of_not_mem _ _ clean_T5b.2, countChar_eq_zero_of_not_mem _ _ clean_T6.2,
    countChar_eq_zero_of_not_mem _ _ clean_T7a.2, countChar_eq_zero_of_not_mem _ _ clean_T7b.2,
    countChar_eq_zero_of_not_mem _ _ clean_T7c.2, countChar_eq_zero_of_not_mem _ _ clean_T7d.2]
  omega

/-! ## Claim theorems -/

/-- C1 counterexample: with `rawCareerText = "\x7binvented_slot\x7d"` (one `\x7b` and one
`\x7d`), an empty job description and the brace-free name `"x"`, the composed
prompt contains FOUR `\x7b` and FOUR `\x7d` characters: the raw text is spliced at
the template's two `raw_career_data` sites, each holding the escaped,
doubled form `\x7b\x7b invented_slot \x7d\x7d`.  The template itself contributes no
brace and the other inputs are brace-free, so if the literal braces appeared
"verbatim (singly)" as the claim states, the counts would be two (one per
site), not four. -/
theorem c1_counterexample :
    countCharS (promptOf "\x7binvented_slot\x7d" "" "x") '\x7b' = 4 ∧
    countCharS (promptOf "\x7binvented_slot\x7d" "" "x") '\x7d' = 4 ∧
    countCharS "\x7binvented_slot\x7d" '\x7b' = 1 ∧
    countCharS "\x7binvented_slot\x7d" '\x7d' = 1 := by
  refine ⟨?_, ?_, by decide, by decide⟩
  · rw [countCharS_prompt_open]
    decide
  · rw [countCharS_prompt_close]
    decide

/-- C1 (amended): substituting any string `s` as `rawCareerText` (or
`jobDescriptionText`) introduces no new resolvable placeholder slot — the
composed prompt is exactly the fixed template text with `escapeBraces s`
spliced in verbatim at the two raw-text slots, never re-interpreted — and
each literal brace character of `s` appears doubled (not singly) in the
output, since `escapeBraces` doubles every brace. -/
theorem c1_escaped_text_inert (s jd name : String) :
    build_prompt s jd name = Except.ok (composedPrompt s jd name) ∧
    countCharS (escapeBraces s) '\x7b' = 2 * countCharS s '\x7b' ∧
    countCharS (escapeBraces s) '\x7d' = 2 * countCharS s '\x7d' :=
  ⟨build_prompt_closed s jd name, countCharS_escapeBraces_open s,
    countCharS_escapeBraces_close s⟩

/-- C2 counterexample: with `candidateName = "\x7bx\x7d"` (one `\x7b`) and empty raw
text and job description, the composed prompt contains THREE `\x7b` characters —
one for each of the three name-derived slot sites (`user_name` twice,
`user_name_lower` once), each appearing with its brace SINGLE.  Had the
escaping pass (`escapeBraces`, which turns the one `\x7b` into two) been applied
to `candidateName` before substitution as the claim states, each site would
contribute two `\x7b`, for a total of six. -/
theorem c2_counterexample :
    countCharS (promptOf "" "" "\x7bx\x7d") '\x7b' = 3 ∧
    countCharS "\x7bx\x7d" '\x7b' = 1 ∧
    countCharS (escapeBraces "\x7bx\x7d") '\x7b' = 2 := by
  refine ⟨?_, by decide, by decide⟩
  rw [countCharS_prompt_open]
  decide

/-- C2 (amended): `build_prompt` does NOT apply the brace-escaping pass to
`candidateName`: the `user_name` keyword argument is the name verbatim (and
`user_name_lower` its unescaped lowercase space-free derivative), while only
`raw_career_data` and `target_job_description` receive `escapeBraces`.
Because `str.format` substitution is single-pass, the unescaped name still
resolves no additional slot: the rendered prompt is the closed form with
`name` spliced in verbatim. -/
theorem c2_name_not_escaped (raw jd name : String) :
    lookupKey (buildEnv raw jd name) "raw_career_data" = some (escapeBraces raw) ∧
    lookupKey (buildEnv raw jd name) "target_job_description" = some (escapeBraces jd) ∧
    lookupKey (buildEnv raw jd name) "user_name" = some name ∧
    lookupKey (buildEnv raw jd name) "user_name_lower" = some (user_name_lower name) ∧
    build_prompt raw jd name = Except.ok (composedPrompt raw jd name) :=
  ⟨rfl, rfl, rfl, rfl, build_prompt_closed raw jd name⟩

/-- C5 counterexample: `user_name_lower` removes only space (U+0020)
characters, not all whitespace: on the tab-containing name `"Mc\tKinsey"` it
yields `"mc\tkinsey"`, whereas removal of all whitespace characters, as the
claim states, would yield `"mckinsey"`. -/
theorem c5_counterexample :
    user_name_lower "Mc\tKinsey" = "mc\tkinsey" ∧
    ("mc\tkinsey" : String) ≠ "mckinsey" := by
  exact ⟨by decide, by decide⟩

/-- C5 (amended): `normalizedHandle` (the source's `user_name_lower`) is a
lowercase transform followed by removal of all space (U+0020) characters
only; other whitespace and punctuation are untouched.  In particular
`"Alex Morgan" ↦ "alexmorgan"` and `"McKinsey O'Neil" ↦ "mckinseyo'neil"`,
while an embedded tab survives. -/
theorem c5_handle_derivation :
    user_name_lower "Alex Morgan" = "alexmorgan" ∧
    user_name_lower "McKinsey O\x27Neil" = "mckinseyo\x27neil" ∧
    user_name_lower "A b\tC d" = "ab\tcd" := by
  exact ⟨by decide, by decide, by decide⟩

/-- C6 counterexample: the template contains the `raw_career_data` slot
TWICE (context block and bullet-rewrite instruction) and likewise the
`target_job_description` slot twice — not "exactly one occurrence each" as
the claim states. -/
theorem c6_counterexample :
    countOccS PROMPT_DOCSTRING "\x7braw_career_data\x7d" = 2 ∧
    countOccS PROMPT_DOCSTRING "\x7btarget_job_description\x7d" = 2 ∧
    (2 : Nat) ≠ 1 :=
  ⟨tpl_count_rcd, tpl_count_jd, by decide⟩

/-- C6 (amended): the template references every one of the four named slots,
with `raw_career_data` occurring twice, `target_job_description` twice,
`user_name` twice and `user_name_lower` once; `build_prompt` substitutes the
corresponding value at every occurrence (closed form proved in
`build_prompt_closed`). -/
theorem c6_slot_occurrence_counts :
    countOccS PROMPT_DOCSTRING "\x7braw_career_data\x7d" = 2 ∧
    countOccS PROMPT_DOCSTRING "\x7btarget_job_description\x7d" = 2 ∧
    countOccS PROMPT_DOCSTRING "\x7buser_name\x7d" = 2 ∧
    countOccS PROMPT_DOCSTRING "\x7buser_name_lower\x7d" = 1 :=
  ⟨tpl_count_rcd, tpl_count_jd, tpl_count_un, tpl_count_unl⟩

/-- C10 (confirmed): template substitution is single-pass.  The rendered
prompt is exactly the fixed template text with the four substituted values
spliced in verbatim (`composedPrompt`); substituted text is never re-scanned
for placeholder syntax, cannot trigger a second round of slot resolution,
and `build_prompt` succeeds for every input — including a `candidateName`
containing `\x7b` or `\x7d`, which appears in the output exactly as passed. -/
theorem c10_single_pass_substitution (raw jd name : String) :
    build_prompt raw jd name = Except.ok (composedPrompt raw jd name) :=
  build_prompt_closed raw jd name

/-- C8 (confirmed): `build_prompt` is total — for every triple of input
strings (empty strings and brace-laden strings included) it returns a
composed prompt and does not fail: escaping is total and the fixed template
references only the four known slots. -/
theorem c8_build_prompt_total (raw jd name : String) :
    ∃ out : String, build_prompt raw jd name = Except.ok out :=
  ⟨composedPrompt raw jd name, build_prompt_closed raw jd name⟩

/-- C4 counterexample: the composed prompt is NOT always free of placeholder
tokens.  With the valid input `candidateName = "\x7braw_career_data\x7d"` (the name
is substituted unescaped), the rendered prompt contains the unresolved-looking
token `\x7braw_career_data\x7d` verbatim, so its occurrence count is nonzero. -/
theorem c4_counterexample :
    countOccS (promptOf "x" "y" "\x7braw_career_data\x7d") "\x7braw_career_data\x7d" ≠ 0 := by
  rw [show countOccS (promptOf "x" "y" "\x7braw_career_data\x7d") "\x7braw_career_data\x7d"
      = countOccL ("\x7braw_career_data\x7d").data
          (promptOf "x" "y" "\x7braw_career_data\x7d").data from rfl]
  rw [promptOf_eq, composed_data]
  have hpos : 1 ≤ countOccL ("\x7braw_career_data\x7d").data
      (("\x7braw_career_data\x7d").data ++
        (T3.data ++ ((escapeBraces "y").data ++ (T4.data ++ ((escapeBraces "x").data ++
          (T5a.data ++ (T5b.data ++ (("\x7braw_career_data\x7d").data ++ (T6.data ++
            ((user_name_lower "\x7braw_career_data\x7d").data ++ (T7a.data ++ (T7b.data ++
              (T7c.data ++ T7d.data))))))))))))) :=
    countOccL_pos_of_prefix _ _ (by decide) (isPrefixOf_append_self _ _)
  have h2 := le_trans hpos (countOccL_append_le _ T2.data _)
  have h3 := le_trans h2 (countOccL_append_le _ (escapeBraces "y").data _)
  have h4 := le_trans h3 (countOccL_append_le _ T1.data _)
  have h5 := le_trans h4 (countOccL_append_le _ (escapeBraces "x").data _)
  have h6 := le_trans h5 (countOccL_append_le _ T0.data _)
  omega

/-- C4 (amended): for inputs containing no brace characters, the composed
prompt contains no brace character at all — in particular zero instances of
any of the four placeholder tokens — and the substitution environment binds
exactly the closed slot set
`\x7braw_career_data, target_job_description, user_name, user_name_lower\x7d`
(the source-level names of the spec's
`\x7brawCareerText, jobDescriptionText, candidateName, normalizedHandle\x7d`);
no other slot name is ever substituted. -/
theorem c4_total_substitution (raw jd name : String)
    (h1 : '\x7b' ∉ raw.data) (h2 : '\x7d' ∉ raw.data) (h3 : '\x7b' ∉ jd.data)
    (h4 : '\x7d' ∉ jd.data) (h5 : '\x7b' ∉ name.data) (h6 : '\x7d' ∉ name.data) :
    '\x7b' ∉ (promptOf raw jd name).data ∧
    '\x7d' ∉ (promptOf raw jd name).data ∧
    countOccS (promptOf raw jd name) "\x7braw_career_data\x7d" = 0 ∧
    countOccS (promptOf raw jd name) "\x7btarget_job_description\x7d" = 0 ∧
    countOccS (promptOf raw jd name) "\x7buser_name\x7d" = 0 ∧
    countOccS (promptOf raw jd name) "\x7buser_name_lower\x7d" = 0 ∧
    (buildEnv raw jd name).map Prod.fst =
      ["raw_career_data", "target_job_description", "user_name", "user_name_lower"] := by
  have hopen := no_open_in_prompt raw jd name h1 h2 h3 h4 h5
  have hclose := no_close_in_prompt raw jd name h1 h2 h3 h4 h6
  refine ⟨hopen, hclose, ?_, ?_, ?_, ?_, rfl⟩
  · rw [show countOccS (promptOf raw jd name) "\x7braw_career_data\x7d"
        = countOccL ('\x7b' :: ("raw_career_data\x7d").data) (promptOf raw jd name).data from rfl]
    exact countOccL_zero_of_not_mem _ _ _ hopen
  · rw [show countOccS (promptOf raw jd name) "\x7btarget_job_description\x7d"
        = countOccL ('\x7b' :: ("target_job_description\x7d").data)
            (promptOf raw jd name).data from rfl]
    exact countOccL_zero_of_not_mem _ _ _ hopen
  · rw [show countOccS (promptOf raw jd name) "\x7buser_name\x7d"
        = countOccL ('\x7b' :: ("user_name\x7d").data) (promptOf raw jd name).data from rfl]
    exact countOccL_zero_of_not_mem _ _ _ hopen
  · rw [show countOccS (promptOf raw jd name) "\x7buser_name_lower\x7d"
        = countOccL ('\x7b' :: ("user_name_lower\x7d").data) (promptOf raw jd name).data from rfl]
    exact countOccL_zero_of_not_mem _ _ _ hopen

/-- Witness for `c4_total_substitution` at the concrete brace-free input
`("a", "b", "c")`. -/
theorem c4_total_substitution_witness :
    '\x7b' ∉ (promptOf "a" "b" "c").data ∧
    '\x7d' ∉ (promptOf "a" "b" "c").data ∧
    countOccS (promptOf "a" "b" "c") "\x7braw_career_data\x7d" = 0 ∧
    countOccS (promptOf "a" "b" "c") "\x7btarget_job_description\x7d" = 0 ∧
    countOccS (promptOf "a" "b" "c") "\x7buser_name\x7d" = 0 ∧
    countOccS (promptOf "a" "b" "c") "\x7buser_name_lower\x7d" = 0 ∧
    (buildEnv "a" "b" "c").map Prod.fst =
      ["raw_career_data", "target_job_description", "user_name", "user_name_lower"] :=
  c4_total_substitution "a" "b" "c" (by decide) (by decide) (by decide) (by decide)
    (by decide) (by decide)

/-- C3 counterexample: the error raised when all three extraction paths fail
does NOT carry the raw response: two distinct all-paths-fail responses
produce the very same constant error
(`RuntimeError("Unexpected OpenAI response structure")`), so the raw
response cannot be recovered from it. -/
theorem c3_counterexample :
    call_openai_chat respFailA = Except.error ServiceError.unexpectedResponseStructure ∧
    call_openai_chat respFailB = Except.error ServiceError.unexpectedResponseStructure ∧
    respFailA ≠ respFailB :=
  ⟨rfl, rfl, by decide⟩

/-- C3 (amended): response extraction tries, in order, (a) the mapping-style
path `resp["choices"][0]["message"]["content"]`, (b) the attribute-style
path `resp.choices[0].message.content`, (c) the legacy path
`resp["choices"][0]["text"]`, returning the first success — in particular a
response supporting only the legacy text path returns that text — and for
every response on which all three paths fail it fails with the constant
`RuntimeError("Unexpected OpenAI response structure")` (chained to the last
access error; the raw response itself is not carried on the error). -/
theorem c3_extraction_fallback_order :
    (∀ (v : PyText) (o2 o3 : Option PyText) (d : String),
      call_openai_chat ⟨some v, o2, o3, d⟩ = Except.ok v) ∧
    (∀ (v : PyText) (o3 : Option PyText) (d : String),
      call_openai_chat ⟨none, some v, o3, d⟩ = Except.ok v) ∧
    (∀ (v : PyText) (d : String),
      call_openai_chat ⟨none, none, some v, d⟩ = Except.ok v) ∧
    (∀ d : String,
      call_openai_chat ⟨none, none, none, d⟩ =
        Except.error ServiceError.unexpectedResponseStructure) :=
  ⟨fun _ _ _ _ => rfl, fun _ _ _ => rfl, fun _ _ => rfl, fun _ => rfl⟩

/-- C7 counterexample: a response whose first access path succeeds with a
Python `None` content yields no extractable text, yet the client does NOT
raise: it returns the `None`, and `main` silently converts it to empty
output (`assistant_text or ""`) with exit code 0. -/
theorem c7_counterexample :
    call_openai_chat respNullContent = Except.ok PyText.null ∧
    mainFn (some "k") none (some respNullContent) = (0, "") :=
  ⟨rfl, rfl⟩

/-- C7 (amended): for every response on which all three access paths fail,
the client raises the `RuntimeError` rather than returning an empty string,
and `main` exits with code 3 and empty stdout; however a response whose
successful path holds a `None` content is returned as-is and `main` writes
it as empty output with exit code 0 (`assistant_text or ""`), so a no-text
response is not always surfaced as an error. -/
theorem c7_error_never_empty_output :
    (∀ d : String, call_openai_chat ⟨none, none, none, d⟩ =
      Except.error ServiceError.unexpectedResponseStructure) ∧
    (∀ d : String, mainFn (some "k") none (some ⟨none, none, none, d⟩) = (3, "")) ∧
    call_openai_chat respNullContent = Except.ok PyText.null ∧
    mainFn (some "k") none (some respNullContent) = (0, "") :=
  ⟨fun _ => rfl, fun _ => rfl, rfl, rfl⟩

/-- C9 (confirmed): the exit code is 0 exactly on success (credential
present, service call and extraction succeeded), 2 exactly when the
credential is missing (no truthy `--api-key` argument and no truthy
`OPENAI_API_KEY`), and 3 exactly when the completion-service call or
extraction failed; no other exit code arises from these error kinds. -/
theorem c9_exit_codes (a e : Option String) (r : Option ChatResponse) :
    ((mainFn a e r).1 = 0 ∨ (mainFn a e r).1 = 2 ∨ (mainFn a e r).1 = 3) ∧
    ((mainFn a e r).1 = 2 ↔ pyTruthy (if pyTruthy a then a else e) = false) ∧
    ((mainFn a e r).1 = 3 ↔
      pyTruthy (if pyTruthy a then a else e) = true ∧ serviceCallFailed r = true) ∧
    ((mainFn a e r).1 = 0 ↔
      pyTruthy (if pyTruthy a then a else e) = true ∧ serviceCallFailed r = false) := by
  cases hk : pyTruthy (if pyTruthy a then a else e) with
  | false => simp [mainFn, hk]
  | true =>
    cases r with
    | none => simp [mainFn, hk, serviceCallFailed]
    | some resp =>
      cases hres : call_openai_chat resp with
      | error err => simp [mainFn, hk, serviceCallFailed, hres]
      | ok v => simp [mainFn, hk, serviceCallFailed, hres]
